import Mathlib

namespace Chatty

/-!
Shallow embedding of the real-time broadcast core of the Chatty repository
(`registerRoutes` WebSocket handler in the server routes module).

The embedded state mirrors the runtime state of the handler:
  * per-connection mutable fields `ws.userId` / `ws.roomId` (both
    `number | undefined` in the source, hence `Option Nat` here) and the
    transport's readyState (`isOpen`);
  * the process-wide `rooms : Map<number, Set<Client>>` membership table,
    embedded as an association list from room id to the list of member
    connection ids (a JS `Set` in insertion order).

Handlers return the updated state together with the list of observable
actions they perform, in execution order: the `await`ed persistence append
in the message branch settles before the broadcast loop runs, so the
append action precedes the send actions in the emitted list.  JS numeric
truthiness (`if (ws.roomId && ws.userId)`) is embedded explicitly: `0` and
`undefined` are both falsy.
-/

/-- Per-connection state: the `userId` / `roomId` fields the handler
attaches to the WebSocket object, plus whether the transport's readyState
is OPEN. -/
structure Client where
  userId : Option Nat := none
  roomId : Option Nat := none
  isOpen : Bool := true
deriving DecidableEq, Repr

/-- Inbound WebSocket event as parsed from JSON (the `Message` interface
of the source; `type` is an arbitrary string at the parse boundary). -/
structure InEvent where
  type : String
  roomId : Nat
  userId : Nat
  username : String
  content : Option String := none
  encrypted : Option Bool := none
deriving DecidableEq, Repr

/-- Outbound event shape: the object the handler serializes and sends.
`content`/`encrypted` are present only for message broadcasts. -/
structure OutEvent where
  type : String
  roomId : Nat
  userId : Nat
  username : String
  content : Option String := none
  encrypted : Option Bool := none
deriving DecidableEq, Repr

/-- Observable actions of the router, listed in execution order:
`persistAppend` is the (awaited) insert into the messages store,
`send` is one delivery of an outbound event to one connection. -/
inductive Action where
  | persistAppend (roomId userId : Nat) (content : Option String) (encrypted : Option Bool)
  | send (conn : Nat) (ev : OutEvent)
deriving DecidableEq, Repr

/-- Server state: the per-connection registry (connection id to `Client`
fields) and the room membership table `rooms`. -/
structure ServerState where
  clients : List (Nat × Client)
  rooms : List (Nat × List Nat)
deriving DecidableEq, Repr

/-- `Map.get`: first binding of the key in the association list. -/
def lookupEntry {β : Type} (k : Nat) : List (Nat × β) → Option β
  | [] => none
  | (k2, v) :: rest => if k = k2 then some v else lookupEntry k rest

/-- `Map.set` (also models in-place mutation of a looked-up value):
replace the binding of `k`, or append one if absent. -/
def setEntry {β : Type} (k : Nat) (v : β) : List (Nat × β) → List (Nat × β)
  | [] => [(k, v)]
  | (k2, v2) :: rest => if k = k2 then (k, v) :: rest else (k2, v2) :: setEntry k v rest

/-- `Map.delete`: drop every binding of `k`. -/
def removeEntry {β : Type} (k : Nat) : List (Nat × β) → List (Nat × β)
  | [] => []
  | (k2, v) :: rest => if k2 = k then removeEntry k rest else (k2, v) :: removeEntry k rest

/-- `Set.add`: append unless already a member (JS `Set` keeps insertion
order and deduplicates). -/
def setAdd (c : Nat) (l : List Nat) : List Nat :=
  if c ∈ l then l else l ++ [c]

/-- `Set.delete`: remove the element. -/
def setDelete (c : Nat) (l : List Nat) : List Nat :=
  List.filter (fun x => x ≠ c) l

/-- The `Client` fields of connection `c`; a connection whose fields were
never assigned has `userId`/`roomId` undefined and an open transport. -/
def getClient (s : ServerState) (c : Nat) : Client :=
  (lookupEntry c s.clients).getD {}

/-- Member list of a room: `rooms.get(roomId)`, defaulting to the fresh
empty set the join branch creates when the entry is absent. -/
def getMembers (s : ServerState) (r : Nat) : List Nat :=
  (lookupEntry r s.rooms).getD []

/-- readyState check `client.readyState === WebSocket.OPEN`. -/
def clientOpen (clients : List (Nat × Client)) (c : Nat) : Bool :=
  ((lookupEntry c clients).getD {}).isOpen

/-- The broadcast loop: `members.forEach(client => { if (client.readyState
=== WebSocket.OPEN) client.send(...) })`.  Each recipient is guarded
independently; a non-open member is skipped and the loop continues. -/
def broadcastTo (clients : List (Nat × Client)) (members : List Nat) (ev : OutEvent) :
    List Action :=
  members.filterMap (fun x => if clientOpen clients x then some (Action.send x ev) else none)

/-- JS truthiness of a `number | undefined` field: `undefined` and `0`
are falsy. -/
def truthy : Option Nat → Bool
  | none => false
  | some n => n ≠ 0

/-- The outbound join notice built in the join branch. -/
def joinMsgOf (m : InEvent) : OutEvent :=
  { type := "join", roomId := m.roomId, userId := m.userId, username := m.username }

/-- The outbound message `messageToSend` built in the message branch. -/
def msgOf (m : InEvent) : OutEvent :=
  { type := "message", roomId := m.roomId, userId := m.userId, username := m.username,
    content := m.content, encrypted := m.encrypted }

/-- The outbound leave notice built in the close handler: the username is
the empty string (the server does not track usernames). -/
def leaveMsgOf (r u : Nat) : OutEvent :=
  { type := "leave", roomId := r, userId := u, username := "" }

/-- Join branch (`message.type === "join"`): validate the room against the
persistence gateway (`storage.getRoom`); on not-found, return with no state
change and no output.  Otherwise set `ws.userId`/`ws.roomId`, get-or-create
the room's member set, add `ws`, and broadcast the join notice to every
open member of that set (the joining connection included). -/
def handleJoin (roomExists : Nat → Bool) (s : ServerState) (c : Nat) (m : InEvent) :
    ServerState × List Action :=
  if roomExists m.roomId then
    let cl := getClient s c
    let s1 : ServerState :=
      { s with clients := setEntry c { cl with userId := some m.userId, roomId := some m.roomId } s.clients }
    let members := setAdd c (getMembers s1 m.roomId)
    let s2 : ServerState := { s1 with rooms := setEntry m.roomId members s1.rooms }
    (s2, broadcastTo s2.clients members (joinMsgOf m))
  else
    (s, [])

/-- Message branch (`message.type === "message"`): look the room up by the
event's claimed `roomId` only (`rooms.get(message.roomId)`; the sender
`ws` is never consulted); on a missing entry, drop the event.  Otherwise
`await` the persistence append — its rejection is caught and ignored —
and then broadcast to every open member of the entry. -/
def handleMessage (s : ServerState) (ws : Nat) (m : InEvent)
    (persistResult : Except String Unit) : ServerState × List Action :=
  match lookupEntry m.roomId s.rooms with
  | none => (s, [])
  | some members =>
    let persistActs : List Action :=
      [Action.persistAppend m.roomId m.userId m.content m.encrypted]
    let afterCatch : List Action :=
      match persistResult with
      | Except.ok _ => persistActs
      | Except.error _ => persistActs
    (s, afterCatch ++ broadcastTo s.clients members (msgOf m))

/-- The inbound-event dispatch of the `ws.on("message")` handler: only the
types `"join"` and `"message"` have branches; any other type falls
through with no effect. -/
def handleEvent (roomExists : Nat → Bool) (persistResult : Except String Unit)
    (s : ServerState) (c : Nat) (m : InEvent) : ServerState × List Action :=
  if m.type = "join" then handleJoin roomExists s c m
  else if m.type = "message" then handleMessage s c m persistResult
  else (s, [])

/-- The transport closing: the socket's readyState leaves OPEN before the
`close` handler body runs. -/
def closeTransport (s : ServerState) (c : Nat) : ServerState :=
  { s with clients := setEntry c { getClient s c with isOpen := false } s.clients }

/-- The `ws.on("close")` handler: guarded by JS truthiness of
`ws.roomId && ws.userId`; looks up the tracked room, deletes `ws` from its
member set, deletes the entry when the set became empty, and otherwise
broadcasts the leave notice to the remaining open members. -/
def handleClose (s : ServerState) (c : Nat) : ServerState × List Action :=
  let cl := getClient s c
  let s0 := closeTransport s c
  if truthy cl.roomId && truthy cl.userId then
    match cl.roomId, cl.userId with
    | some r, some u =>
      match lookupEntry r s0.rooms with
      | none => (s0, [])
      | some members =>
        let members1 := setDelete c members
        if members1 = [] then
          ({ s0 with rooms := removeEntry r s0.rooms }, [])
        else
          let s1 : ServerState := { s0 with rooms := setEntry r members1 s0.rooms }
          (s1, broadcastTo s1.clients members1 (leaveMsgOf r u))
    | _, _ => (s0, [])
  else
    (s0, [])

/-- One step of the router: processing one inbound event of some
connection, or one transport close. -/
inductive Step (roomExists : Nat → Bool) (persistResult : Except String Unit) :
    ServerState → ServerState → Prop
  | ev (s : ServerState) (c : Nat) (m : InEvent) :
      Step roomExists persistResult s (handleEvent roomExists persistResult s c m).1
  | close (s : ServerState) (c : Nat) :
      Step roomExists persistResult s (handleClose s c).1

/-- The initial server state: no connection fields assigned, empty rooms
table. -/
def initialState : ServerState := { clients := [], rooms := [] }

/-- States reachable from the initial state by router steps. -/
inductive Reachable (roomExists : Nat → Bool) (persistResult : Except String Unit) :
    ServerState → Prop
  | init : Reachable roomExists persistResult initialState
  | step {s s2 : ServerState} : Reachable roomExists persistResult s →
      Step roomExists persistResult s s2 → Reachable roomExists persistResult s2

/-- The membership-table invariant: every present room entry has a
non-empty member set. -/
def roomsWF (rooms : List (Nat × List Nat)) : Prop :=
  ∀ r l, lookupEntry r rooms = some l → l ≠ []

/-- The invariant in the form the spec states it: a room entry exists in
the table if and only if the room's member set is non-empty. -/
def entryIffNonempty (s : ServerState) : Prop :=
  ∀ r, (lookupEntry r s.rooms).isSome = true ↔ getMembers s r ≠ []

/-- Sanity check of the embedding: the first join to an existing room
creates that room's entry containing exactly the joiner. -/
theorem first_join_creates_entry : (handleJoin (fun r => r = 1) initialState 7
    { type := "join", roomId := 1, userId := 5, username := "alice" }).1.rooms
    = [(1, [7])] := by decide

/-! ### Association-list and set lemmas -/

theorem lookupEntry_setEntry {β : Type} (k : Nat) (v : β) (l : List (Nat × β)) (k2 : Nat) :
    lookupEntry k2 (setEntry k v l) = if k2 = k then some v else lookupEntry k2 l := by
  induction l with
  | nil => simp [setEntry, lookupEntry]
  | cons p rest ih =>
    obtain ⟨ka, va⟩ := p
    simp only [setEntry]
    by_cases hk : k = ka
    · rw [if_pos hk]
      by_cases h2 : k2 = k
      · simp [lookupEntry, h2]
      · have h3 : ¬ k2 = ka := by rw [← hk]; exact h2
        simp [lookupEntry, h2, h3]
    · rw [if_neg hk]
      by_cases h2 : k2 = ka
      · have h4 : ¬ k2 = k := fun h => hk (h.symm.trans h2)
        have h5 : ¬ ka = k := fun h => hk h.symm
        simp [lookupEntry, h2, h4, h5]
      · simp [lookupEntry, h2, ih]

theorem lookupEntry_removeEntry {β : Type} (k : Nat) (l : List (Nat × β)) (k2 : Nat) :
    lookupEntry k2 (removeEntry k l) = if k2 = k then none else lookupEntry k2 l := by
  induction l with
  | nil => simp [removeEntry, lookupEntry]
  | cons p rest ih =>
    obtain ⟨ka, va⟩ := p
    simp only [removeEntry]
    by_cases hk : ka = k
    · rw [if_pos hk, ih]
      by_cases h2 : k2 = k
      · simp [h2]
      · have h3 : ¬ k2 = ka := by rw [hk]; exact h2
        simp [lookupEntry, h2, h3]
    · rw [if_neg hk]
      by_cases h2 : k2 = ka
      · have h4 : ¬ k2 = k := fun h => hk (h2.symm.trans h)
        simp [lookupEntry, h2, h4, hk]
      · simp [lookupEntry, h2, ih]

theorem setAdd_ne_nil (c : Nat) (l : List Nat) : setAdd c l ≠ [] := by
  unfold setAdd
  by_cases h : c ∈ l
  · simp [h]
    rintro rfl
    exact absurd h (List.not_mem_nil c)
  · simp [h]

theorem mem_setAdd_self (c : Nat) (l : List Nat) : c ∈ setAdd c l := by
  unfold setAdd
  by_cases h : c ∈ l <;> simp [h]

theorem mem_setAdd_of_mem {x : Nat} {l : List Nat} (c : Nat) (h : x ∈ l) :
    x ∈ setAdd c l := by
  unfold setAdd
  by_cases hc : c ∈ l <;> simp [hc, h]

theorem mem_setDelete {x c : Nat} {l : List Nat} (hx : x ∈ l) (hne : x ≠ c) :
    x ∈ setDelete c l := by
  simp [setDelete, List.mem_filter, hx, hne]

/-- The broadcast loop sends the event to every open member. -/
theorem send_mem_broadcastTo {clients : List (Nat × Client)} {members : List Nat}
    {x : Nat} (ev : OutEvent) (hx : x ∈ members) (hopen : clientOpen clients x = true) :
    Action.send x ev ∈ broadcastTo clients members ev := by
  unfold broadcastTo
  rw [List.mem_filterMap]
  exact ⟨x, hx, by simp [hopen]⟩

/-- The message branch never modifies the server state. -/
theorem handleMessage_fst (s : ServerState) (ws : Nat) (m : InEvent)
    (persistResult : Except String Unit) : (handleMessage s ws m persistResult).1 = s := by
  unfold handleMessage
  cases lookupEntry m.roomId s.rooms <;> rfl

/-- The message branch with an existing room entry: the emitted actions
are the awaited persistence append followed by the broadcast sends
(regardless of how the append settles, since the `catch` swallows the
rejection). -/
theorem handleMessage_snd (s : ServerState) (ws : Nat) (m : InEvent)
    (persistResult : Except String Unit) (members : List Nat)
    (hm : lookupEntry m.roomId s.rooms = some members) :
    (handleMessage s ws m persistResult).2 =
      Action.persistAppend m.roomId m.userId m.content m.encrypted ::
        broadcastTo s.clients members (msgOf m) := by
  unfold handleMessage
  rw [hm]
  cases persistResult <;> rfl

/-- Full behaviour of the close handler for a connection whose tracked
`roomId`/`userId` are both set and non-zero and whose tracked room has an
entry: the connection is removed from that entry; if the set became empty
the entry is deleted and nothing is sent, otherwise the leave notice is
broadcast to the remaining open members. -/
theorem handleClose_joined_spec (s : ServerState) (c r u : Nat) (members : List Nat)
    (hroom : (getClient s c).roomId = some r) (huser : (getClient s c).userId = some u)
    (hr0 : r ≠ 0) (hu0 : u ≠ 0) (hm : lookupEntry r s.rooms = some members) :
    handleClose s c =
      if setDelete c members = [] then
        ({ closeTransport s c with rooms := removeEntry r s.rooms }, [])
      else
        ({ closeTransport s c with rooms := setEntry r (setDelete c members) s.rooms },
          broadcastTo (closeTransport s c).clients (setDelete c members) (leaveMsgOf r u)) := by
  unfold handleClose
  simp only [hroom, huser, truthy, closeTransport]
  have hc : (lookupEntry r { s with clients := setEntry c { getClient s c with isOpen := false } s.clients }.rooms) = some members := hm
  simp only [hr0, hu0, decide_not, hc]
  by_cases hempty : setDelete c members = [] <;> simp [hempty, closeTransport]

/-- The join branch preserves the non-empty-entries invariant: the only
entry it writes is set to a member list that just had the joiner added. -/
theorem roomsWF_handleJoin (roomExists : Nat → Bool) (s : ServerState) (c : Nat)
    (m : InEvent) (h : roomsWF s.rooms) : roomsWF (handleJoin roomExists s c m).1.rooms := by
  unfold handleJoin
  by_cases hex : roomExists m.roomId
  · simp only [hex, if_true]
    intro r l hl
    rw [lookupEntry_setEntry] at hl
    by_cases hr : r = m.roomId
    · rw [if_pos hr] at hl
      cases hl
      exact setAdd_ne_nil _ _
    · rw [if_neg hr] at hl
      exact h r l hl
  · simp only [hex, if_false]
    exact h

/-- The close handler preserves the non-empty-entries invariant: it either
leaves the table alone, deletes an entry, or writes back a member list it
just checked to be non-empty. -/
theorem roomsWF_handleClose (s : ServerState) (c : Nat)
    (h : roomsWF s.rooms) : roomsWF (handleClose s c).1.rooms := by
  unfold handleClose
  cases hcr : (getClient s c).roomId with
  | none => simpa [truthy, closeTransport, hcr] using h
  | some r =>
    cases hcu : (getClient s c).userId with
    | none => simpa [truthy, closeTransport, hcr, hcu] using h
    | some u =>
      by_cases hr0 : r = 0
      · simpa [truthy, hcr, hcu, hr0, closeTransport] using h
      by_cases hu0 : u = 0
      · simpa [truthy, hcr, hcu, hr0, hu0, closeTransport] using h
      simp only [truthy, hcr, hcu, hr0, hu0, decide_not, decide_False,
        Bool.not_false, Bool.and_self, if_true, and_self, ite_true]
      cases hm : lookupEntry r s.rooms with
      | none => simpa [hm, closeTransport] using h
      | some members =>
        have hm2 : lookupEntry r (closeTransport s c).rooms = some members := hm
        by_cases hempty : setDelete c members = []
        · simp only [closeTransport] at hm2
          simp only [hm2, hempty, closeTransport, if_true, ite_true]
          intro r2 l2 hl2
          rw [lookupEntry_removeEntry] at hl2
          by_cases h2 : r2 = r
          · rw [if_pos h2] at hl2
            cases hl2
          · rw [if_neg h2] at hl2
            exact h r2 l2 hl2
        · simp only [closeTransport] at hm2
          simp only [hm2, hempty, closeTransport, if_false, ite_false]
          intro r2 l2 hl2
          rw [lookupEntry_setEntry] at hl2
          by_cases h2 : r2 = r
          · rw [if_pos h2] at hl2
            cases hl2
            exact hempty
          · rw [if_neg h2] at hl2
            exact h r2 l2 hl2

/-- Every reachable state satisfies the non-empty-entries invariant. -/
theorem reachable_roomsWF (roomExists : Nat → Bool) (persistResult : Except String Unit)
    (s : ServerState) (h : Reachable roomExists persistResult s) : roomsWF s.rooms := by
  induction h with
  | init => intro r l hl; cases hl
  | step _ hstep ih =>
    cases hstep with
    | ev c m =>
      unfold handleEvent
      by_cases hj : m.type = "join"
      · rw [if_pos hj]
        exact roomsWF_handleJoin _ _ _ _ ih
      · by_cases hm : m.type = "message"
        · rw [if_neg hj, if_pos hm, handleMessage_fst]
          exact ih
        · rw [if_neg hj, if_neg hm]
          exact ih
    | close c => exact roomsWF_handleClose _ _ ih

/-- The non-empty-entries invariant, in the form the spec states it:
an entry is present exactly when the member set is non-empty. -/
theorem roomsWF_entryIffNonempty (s : ServerState) (h : roomsWF s.rooms) :
    entryIffNonempty s := by
  intro r
  constructor
  · intro hs
    cases hl : lookupEntry r s.rooms with
    | none => rw [hl] at hs; cases hs
    | some l =>
      have : getMembers s r = l := by simp [getMembers, hl]
      rw [this]
      exact h r l hl
  · intro hne
    cases hl : lookupEntry r s.rooms with
    | none =>
      exfalso
      apply hne
      simp [getMembers, hl]
    | some l => simp

/-! ### Claim theorems -/

/-- C9: for every successful Join (the named room exists), the joining
connection itself receives the broadcast Join notice `{userId, username,
roomId}` in its outbound stream, provided its transport is writable. -/
theorem join_echo_inclusion (roomExists : Nat → Bool) (s : ServerState) (c : Nat)
    (m : InEvent) (hex : roomExists m.roomId = true)
    (hopen : (getClient s c).isOpen = true) :
    Action.send c (joinMsgOf m) ∈ (handleJoin roomExists s c m).2 := by
  unfold handleJoin
  rw [if_pos hex]
  apply send_mem_broadcastTo _ (mem_setAdd_self c _)
  simpa [clientOpen, lookupEntry_setEntry, getClient] using hopen

/-- Witness for C9: a fresh open connection joining the existing room 1
receives its own join notice. -/
theorem join_echo_inclusion_witness :
    Action.send 7 (joinMsgOf { type := "join", roomId := 1, userId := 5, username := "alice" }) ∈
      (handleJoin (fun r => r == 1) initialState 7
        { type := "join", roomId := 1, userId := 5, username := "alice" }).2 :=
  join_echo_inclusion (fun r => r == 1) initialState 7
    { type := "join", roomId := 1, userId := 5, username := "alice" }
    (by decide) (by decide)

/-- C5: if the persistence append fails (the awaited insert settles with an
error, which the `catch` swallows), the Message event is still broadcast to
every currently-connected member of the existing room entry. -/
theorem persist_failure_still_broadcasts (s : ServerState) (ws : Nat) (m : InEvent)
    (e : String) (members : List Nat) (x : Nat)
    (hm : lookupEntry m.roomId s.rooms = some members)
    (hx : x ∈ members) (hopen : clientOpen s.clients x = true) :
    Action.send x (msgOf m) ∈ (handleMessage s ws m (Except.error e)).2 := by
  rw [handleMessage_snd s ws m (Except.error e) members hm]
  exact List.mem_cons_of_mem _ (send_mem_broadcastTo _ hx hopen)

/-- Witness for C5: with the append failing, the other open member of room
1 still receives the message event. -/
theorem persist_failure_still_broadcasts_witness :
    Action.send 8 (msgOf { type := "message", roomId := 1, userId := 5,
                           username := "alice", content := some "hi",
                           encrypted := some false }) ∈
      (handleMessage
        { clients := [(7, { userId := some 5, roomId := some 1, isOpen := true }),
                      (8, { userId := some 9, roomId := some 1, isOpen := true })],
          rooms := [(1, [7, 8])] } 7
        { type := "message", roomId := 1, userId := 5, username := "alice",
          content := some "hi", encrypted := some false }
        (Except.error "db down")).2 :=
  persist_failure_still_broadcasts
    { clients := [(7, { userId := some 5, roomId := some 1, isOpen := true }),
                  (8, { userId := some 9, roomId := some 1, isOpen := true })],
      rooms := [(1, [7, 8])] } 7
    { type := "message", roomId := 1, userId := 5, username := "alice",
      content := some "hi", encrypted := some false }
    "db down" [7, 8] 8 (by decide) (by decide) (by decide)

/-- C6: in every broadcast loop (join, message and leave notices all go
through the same loop shape), a member whose transport is not writable is
skipped by a per-recipient guard, and every other member whose transport is
writable still receives the event. -/
theorem broadcast_partial_failure_isolated (clients : List (Nat × Client))
    (members : List Nat) (ev : OutEvent) (f x : Nat)
    (hf : f ∈ members) (hfdead : clientOpen clients f = false)
    (hx : x ∈ members) (hne : x ≠ f) (hopen : clientOpen clients x = true) :
    Action.send x ev ∈ broadcastTo clients members ev :=
  send_mem_broadcastTo _ hx hopen

/-- Witness for C6: member 9 of room 1 is dead, yet member 8 still receives
the broadcast event. -/
theorem broadcast_partial_failure_isolated_witness :
    Action.send 8 (leaveMsgOf 1 5) ∈
      broadcastTo [(8, { userId := some 9, roomId := some 1, isOpen := true }),
                   (9, { userId := some 2, roomId := some 1, isOpen := false })]
        [8, 9] (leaveMsgOf 1 5) :=
  broadcast_partial_failure_isolated
    [(8, { userId := some 9, roomId := some 1, isOpen := true }),
     (9, { userId := some 2, roomId := some 1, isOpen := false })]
    [8, 9] (leaveMsgOf 1 5) 9 8
    (by decide) (by decide) (by decide) (by decide) (by decide)

/-- C7: a Join event naming a room the persistence gateway reports as not
found is dropped silently: the handler returns before touching any state,
so the registry and the membership table are unchanged, no outbound event
is emitted, and the connection's fields stay as they were (Unjoined stays
Unjoined). -/
theorem join_nonexistent_room_noop (roomExists : Nat → Bool)
    (persistResult : Except String Unit) (s : ServerState) (c : Nat) (m : InEvent)
    (ht : m.type = "join") (hex : roomExists m.roomId = false) :
    handleEvent roomExists persistResult s c m = (s, []) := by
  unfold handleEvent
  rw [if_pos ht]
  unfold handleJoin
  rw [hex]
  rfl

/-- Witness for C7: joining nonexistent room 3 from the initial state is a
complete no-op. -/
theorem join_nonexistent_room_noop_witness :
    handleEvent (fun _ => false) (Except.ok ()) initialState 7
      { type := "join", roomId := 3, userId := 5, username := "carol" } =
      (initialState, []) :=
  join_nonexistent_room_noop (fun _ => false) (Except.ok ()) initialState 7
    { type := "join", roomId := 3, userId := 5, username := "carol" }
    (by decide) (by decide)

/-- C10: a well-formed inbound event whose type is neither "join" nor
"message" (a client-sent "leave" included) falls through the dispatch: no
state change, no outbound event, and the connection is left as it was
(in particular still open). -/
theorem unknown_event_type_noop (roomExists : Nat → Bool)
    (persistResult : Except String Unit) (s : ServerState) (c : Nat) (m : InEvent)
    (hj : m.type ≠ "join") (hm : m.type ≠ "message") :
    handleEvent roomExists persistResult s c m = (s, []) := by
  unfold handleEvent
  rw [if_neg hj, if_neg hm]

/-- Witness for C10: a client-sent "leave" event changes nothing. -/
theorem unknown_event_type_noop_witness :
    handleEvent (fun _ => true) (Except.ok ())
      { clients := [(7, { userId := some 5, roomId := some 1, isOpen := true })],
        rooms := [(1, [7])] } 7
      { type := "leave", roomId := 1, userId := 5, username := "alice" } =
      ({ clients := [(7, { userId := some 5, roomId := some 1, isOpen := true })],
         rooms := [(1, [7])] }, []) :=
  unknown_event_type_noop (fun _ => true) (Except.ok ())
    { clients := [(7, { userId := some 5, roomId := some 1, isOpen := true })],
      rooms := [(1, [7])] } 7
    { type := "leave", roomId := 1, userId := 5, username := "alice" }
    (by decide) (by decide)

/-- C1 counterexample: connection 7 joins existing room 1, then existing
room 2.  The join branch never removes the connection from its previous
room, so afterwards connection 7 appears in BOTH room entries — it is not
a member of exactly one room entry, refuting membership exclusivity. -/
theorem membership_exclusivity_counterexample :
    let re : Nat → Bool := fun r => r == 1 || r == 2
    let s1 := (handleJoin re initialState 7
      { type := "join", roomId := 1, userId := 5, username := "alice" }).1
    let s2 := (handleJoin re s1 7
      { type := "join", roomId := 2, userId := 5, username := "alice" }).1
    (getClient s2 7).roomId = some 2 ∧
      lookupEntry 1 s2.rooms = some [7] ∧ lookupEntry 2 s2.rooms = some [7] := by
  decide

/-- C1 (amended): a connection may appear in several room entries at once.
After a connection already a member of room `A` processes a successful Join
for a different room `B = m.roomId`, it is a member of both `A`'s and `B`'s
entries (only its registry field `roomId` tracks the new room). -/
theorem join_second_room_keeps_first (roomExists : Nat → Bool) (s : ServerState)
    (c : Nat) (m : InEvent) (A : Nat)
    (hex : roomExists m.roomId = true) (hmem : c ∈ getMembers s A)
    (hne : A ≠ m.roomId) :
    c ∈ getMembers (handleJoin roomExists s c m).1 A ∧
      c ∈ getMembers (handleJoin roomExists s c m).1 m.roomId := by
  unfold handleJoin
  rw [if_pos hex]
  constructor
  · simp only [getMembers, lookupEntry_setEntry] at hmem ⊢
    rw [if_neg hne]
    exact hmem
  · simp [getMembers, lookupEntry_setEntry]
    exact mem_setAdd_self c _

/-- Witness for the amended C1: connection 7, a member of room 1, joins
room 2 and is then a member of both entries. -/
theorem join_second_room_keeps_first_witness :
    7 ∈ getMembers (handleJoin (fun r => r == 2)
          { clients := [(7, { userId := some 5, roomId := some 1, isOpen := true })],
            rooms := [(1, [7])] } 7
          { type := "join", roomId := 2, userId := 5, username := "alice" }).1 1 ∧
      7 ∈ getMembers (handleJoin (fun r => r == 2)
          { clients := [(7, { userId := some 5, roomId := some 1, isOpen := true })],
            rooms := [(1, [7])] } 7
          { type := "join", roomId := 2, userId := 5, username := "alice" }).1 2 :=
  join_second_room_keeps_first (fun r => r == 2)
    { clients := [(7, { userId := some 5, roomId := some 1, isOpen := true })],
      rooms := [(1, [7])] } 7
    { type := "join", roomId := 2, userId := 5, username := "alice" } 1
    (by decide) (by decide) (by decide)

/-- C2 counterexample: connection 7 never joined any room (its registry
`roomId` is undefined and it is not in room 1's member set), yet its
Message event claiming `roomId = 1` is broadcast into room 1 — member 8
receives it.  The event is not dropped, refuting the claim that the server
consults the sender's tracked membership. -/
theorem message_spoof_counterexample :
    let s : ServerState :=
      { clients := [(8, { userId := some 9, roomId := some 1, isOpen := true }),
                    (7, { userId := none, roomId := none, isOpen := true })],
        rooms := [(1, [8])] }
    let m : InEvent := { type := "message", roomId := 1, userId := 5,
                         username := "mallory", content := some "spoof",
                         encrypted := some false }
    (getClient s 7).roomId = none ∧ 7 ∉ getMembers s 1 ∧
      Action.send 8 (msgOf m) ∈ (handleMessage s 7 m (Except.ok ())).2 := by
  decide

/-- C2 (amended): the room broadcast into is determined solely by the
event's claimed `roomId`.  The message branch never reads the sender
(its result is identical for any two senders); the event is dropped
exactly when the table has no entry for the claimed `roomId`, and when an
entry exists the event is persisted and broadcast to that entry's open
members, the sender's own membership never being consulted. -/
theorem message_room_by_event_roomId (s : ServerState) (ws1 ws2 : Nat) (m : InEvent)
    (persistResult : Except String Unit) :
    handleMessage s ws1 m persistResult = handleMessage s ws2 m persistResult ∧
    (lookupEntry m.roomId s.rooms = none → handleMessage s ws1 m persistResult = (s, [])) ∧
    (∀ members, lookupEntry m.roomId s.rooms = some members →
      (handleMessage s ws1 m persistResult).2 =
        Action.persistAppend m.roomId m.userId m.content m.encrypted ::
          broadcastTo s.clients members (msgOf m)) := by
  refine ⟨rfl, ?_, ?_⟩
  · intro h
    unfold handleMessage
    rw [h]
  · intro members h
    exact handleMessage_snd s ws1 m persistResult members h

/-- Witness for the amended C2: a non-member sender's message into room 1
is appended and broadcast to room 1's member. -/
theorem message_room_by_event_roomId_witness :
    (handleMessage { clients := [(8, { userId := some 9, roomId := some 1, isOpen := true })],
                     rooms := [(1, [8])] } 7
      { type := "message", roomId := 1, userId := 5, username := "mallory",
        content := some "spoof", encrypted := some false } (Except.ok ())).2 =
      Action.persistAppend 1 5 (some "spoof") (some false) ::
        broadcastTo [(8, { userId := some 9, roomId := some 1, isOpen := true })] [8]
          (msgOf { type := "message", roomId := 1, userId := 5, username := "mallory",
                   content := some "spoof", encrypted := some false }) :=
  (message_room_by_event_roomId
    { clients := [(8, { userId := some 9, roomId := some 1, isOpen := true })],
      rooms := [(1, [8])] } 7 0
    { type := "message", roomId := 1, userId := 5, username := "mallory",
      content := some "spoof", encrypted := some false } (Except.ok ())).2.2 [8] (by decide)

/-- C4 counterexample: processing a Message event for room 1 with a single
open member emits the persistence append first and the delivery send after
it.  The source `await`s the insert before the broadcast loop, so delivery
to members is ordered after the append settling — the append is on the
critical path, refuting the claim. -/
theorem broadcast_after_append_counterexample :
    (handleMessage { clients := [(7, { userId := some 5, roomId := some 1, isOpen := true })],
                     rooms := [(1, [7])] } 7
      { type := "message", roomId := 1, userId := 5, username := "alice",
        content := some "hi", encrypted := some false } (Except.ok ())).2 =
      [Action.persistAppend 1 5 (some "hi") (some false),
       Action.send 7 { type := "message", roomId := 1, userId := 5, username := "alice",
                       content := some "hi", encrypted := some false }] := by
  rfl

/-- C4 (amended): the message branch awaits the persistence append before
broadcasting: whenever the claimed room has an entry, the emitted action
list is the append followed by the broadcast sends, for any way the append
settles (its failure is caught, but its settling is waited for). -/
theorem append_precedes_broadcast (s : ServerState) (ws : Nat) (m : InEvent)
    (persistResult : Except String Unit) (members : List Nat)
    (hm : lookupEntry m.roomId s.rooms = some members) :
    (handleMessage s ws m persistResult).2 =
      Action.persistAppend m.roomId m.userId m.content m.encrypted ::
        broadcastTo s.clients members (msgOf m) :=
  handleMessage_snd s ws m persistResult members hm

/-- Witness for the amended C4: a concrete message into room 2, with the
append settling in failure, still emits append-then-send in that order. -/
theorem append_precedes_broadcast_witness :
    (handleMessage { clients := [(4, { userId := some 6, roomId := some 2, isOpen := true })],
                     rooms := [(2, [4])] } 4
      { type := "message", roomId := 2, userId := 6, username := "bob",
        content := some "yo", encrypted := some true } (Except.error "slow db")).2 =
      Action.persistAppend 2 6 (some "yo") (some true) ::
        broadcastTo [(4, { userId := some 6, roomId := some 2, isOpen := true })] [4]
          (msgOf { type := "message", roomId := 2, userId := 6, username := "bob",
                   content := some "yo", encrypted := some true }) :=
  append_precedes_broadcast
    { clients := [(4, { userId := some 6, roomId := some 2, isOpen := true })],
      rooms := [(2, [4])] } 4
    { type := "message", roomId := 2, userId := 6, username := "bob",
      content := some "yo", encrypted := some true } (Except.error "slow db") [4] (by decide)

/-- C8 counterexample: connection 7 joins existing room 1 with userId 0
(the join branch accepts any client-supplied userId).  It is then Joined —
its registry `roomId` is room 1 — but on close the JS-truthiness guard
`ws.roomId && ws.userId` is falsy because `userId` is `0`, so the
connection is NOT removed from room 1's member set, refuting the claim. -/
theorem close_userId_zero_counterexample :
    let s1 := (handleJoin (fun r => r == 1) initialState 7
      { type := "join", roomId := 1, userId := 0, username := "zed" }).1
    (getClient s1 7).roomId = some 1 ∧ 7 ∈ getMembers s1 1 ∧
      (getClient (handleClose s1 7).1 7).isOpen = false ∧
      lookupEntry 1 (handleClose s1 7).1.rooms = some [7] := by
  decide

/-- C8 (amended): for every close of a connection in the Joined state whose
registry `userId` and `roomId` are both non-zero and whose tracked room has
an entry: the connection is removed from that entry; if other members
remain, the Leave notice `{type := "leave", roomId, userId, username := ""}`
is broadcast to the remaining open members; if the closing connection was
the last member, the room entry is deleted and nothing is broadcast. -/
theorem close_joined_cleanup (s : ServerState) (c r u : Nat) (members : List Nat)
    (hroom : (getClient s c).roomId = some r) (huser : (getClient s c).userId = some u)
    (hr0 : r ≠ 0) (hu0 : u ≠ 0) (hm : lookupEntry r s.rooms = some members) :
    (setDelete c members = [] →
        lookupEntry r (handleClose s c).1.rooms = none ∧ (handleClose s c).2 = []) ∧
    (setDelete c members ≠ [] →
        lookupEntry r (handleClose s c).1.rooms = some (setDelete c members) ∧
        (handleClose s c).2 =
          broadcastTo (closeTransport s c).clients (setDelete c members) (leaveMsgOf r u)) := by
  rw [handleClose_joined_spec s c r u members hroom huser hr0 hu0 hm]
  constructor
  · intro hempty
    rw [if_pos hempty]
    exact ⟨by simp [lookupEntry_removeEntry], rfl⟩
  · intro hne
    rw [if_neg hne]
    exact ⟨by simp [lookupEntry_setEntry], rfl⟩

/-- Witness for the amended C8: connection 7 closes while rooms 1 still has
member 8; 7 is removed and the leave notice goes to the remaining open
member. -/
theorem close_joined_cleanup_witness :
    lookupEntry 1 (handleClose
        { clients := [(7, { userId := some 5, roomId := some 1, isOpen := true }),
                      (8, { userId := some 9, roomId := some 1, isOpen := true })],
          rooms := [(1, [7, 8])] } 7).1.rooms = some [8] ∧
      (handleClose
        { clients := [(7, { userId := some 5, roomId := some 1, isOpen := true }),
                      (8, { userId := some 9, roomId := some 1, isOpen := true })],
          rooms := [(1, [7, 8])] } 7).2 =
        broadcastTo (closeTransport
          { clients := [(7, { userId := some 5, roomId := some 1, isOpen := true }),
                        (8, { userId := some 9, roomId := some 1, isOpen := true })],
            rooms := [(1, [7, 8])] } 7).clients [8] (leaveMsgOf 1 5) :=
  (close_joined_cleanup
    { clients := [(7, { userId := some 5, roomId := some 1, isOpen := true }),
                  (8, { userId := some 9, roomId := some 1, isOpen := true })],
      rooms := [(1, [7, 8])] } 7 1 5 [7, 8]
    (by decide) (by decide) (by decide) (by decide) (by decide)).2 (by decide)

/-- C3 counterexample: connection 7 joins room 1 and then room 2.  When its
transport closes, the close handler only cleans up the tracked room 2;
room 1's entry — whose only (hence last) member was connection 7 — still
exists in the table and holds the closed connection, refuting that the
entry is deleted once its last member's transport closes. -/
theorem empty_room_gc_counterexample :
    let re : Nat → Bool := fun r => r == 1 || r == 2
    let s1 := (handleJoin re initialState 7
      { type := "join", roomId := 1, userId := 5, username := "alice" }).1
    let s2 := (handleJoin re s1 7
      { type := "join", roomId := 2, userId := 5, username := "alice" }).1
    let s3 := (handleClose s2 7).1
    lookupEntry 1 s2.rooms = some [7] ∧
      (getClient s3 7).isOpen = false ∧
      lookupEntry 1 s3.rooms = some [7] ∧ lookupEntry 2 s3.rooms = none := by
  decide

/-- C3 (amended): every reachable state satisfies "a room entry exists in
the table iff its member set is non-empty", each Join, Message and Close
step preserving it; and the close of a connection deletes its TRACKED
room's entry when the connection was that entry's last member and its
registry ids are non-zero.  A room the connection joined earlier but no
longer tracks is not cleaned up on close (see the counterexample): its
entry survives holding the closed connection. -/
theorem room_table_invariant_and_gc :
    (∀ (roomExists : Nat → Bool) (persistResult : Except String Unit) (s : ServerState),
      Reachable roomExists persistResult s → entryIffNonempty s) ∧
    (∀ (s : ServerState) (c r u : Nat) (members : List Nat),
      (getClient s c).roomId = some r → (getClient s c).userId = some u →
      r ≠ 0 → u ≠ 0 → lookupEntry r s.rooms = some members → setDelete c members = [] →
      lookupEntry r (handleClose s c).1.rooms = none) := by
  constructor
  · intro re pr s h
    exact roomsWF_entryIffNonempty s (reachable_roomsWF re pr s h)
  · intro s c r u members hroom huser hr0 hu0 hm hempty
    rw [handleClose_joined_spec s c r u members hroom huser hr0 hu0 hm, if_pos hempty]
    simp [lookupEntry_removeEntry]

/-- Witness for the amended C3: after the reachable one-join state, room
1's entry presence matches its non-empty member set; and closing the last
member of a one-member room deletes the entry. -/
theorem room_table_invariant_and_gc_witness :
    ((lookupEntry 1 ((handleEvent (fun r => r == 1) (Except.ok ()) initialState 7
        { type := "join", roomId := 1, userId := 5, username := "alice" }).1).rooms).isSome = true ↔
      getMembers ((handleEvent (fun r => r == 1) (Except.ok ()) initialState 7
        { type := "join", roomId := 1, userId := 5, username := "alice" }).1) 1 ≠ []) ∧
    lookupEntry 1 (handleClose
        { clients := [(7, { userId := some 5, roomId := some 1, isOpen := true })],
          rooms := [(1, [7])] } 7).1.rooms = none :=
  ⟨room_table_invariant_and_gc.1 (fun r => r == 1) (Except.ok ()) _
      (Reachable.step Reachable.init (Step.ev initialState 7
        { type := "join", roomId := 1, userId := 5, username := "alice" })) 1,
   room_table_invariant_and_gc.2
      { clients := [(7, { userId := some 5, roomId := some 1, isOpen := true })],
        rooms := [(1, [7])] } 7 1 5 [7]
      (by decide) (by decide) (by decide) (by decide) (by decide) (by decide)⟩

end Chatty
